import Mathlib

/-!
# Verification of `scripts/generate_track_data.py`

A shallow embedding of the track-data generator: the script fetches two CSV
tables from wago.tools, joins them into a bonus-ID → track-name mapping, and
regenerates `TrackData.lua` only when the upstream build version changed.

Modelling conventions:
* Python dictionaries are association lists with insert-or-replace semantics
  (`dictInsert`), preserving insertion order as Python dicts do.
* File contents are modelled as the list of their newline-separated lines
  (the only operation the script performs on a file's text is a per-line
  regex scan), and a file that may not exist as an `Option`.
* HTTP responses are modelled as `Option`/sum types: `none` stands for the
  exception path (network error, timeout, or non-success status raised by
  `raise_for_status`), which the script catches.
* Python string truthiness (`if not s:` is taken for `None` and `""`) is
  `pyFalsy`; Python's `int()` on a string is `pyInt` (optional surrounding
  whitespace, optional sign, decimal digits with PEP-515 underscores between
  digits; other numeral forms are out of scope for the data at hand).
-/

/-- Python whitespace for `str.strip()`/`str.split()` (ASCII range; exotic
Unicode spaces do not occur in the data at hand). -/
def isPyWS (c : Char) : Bool :=
  c = ' ' || c = '\t' || c = '\n' || c = '\r' || c = '\x0b' || c = '\x0c'

/-- Python `s.strip()`: remove leading and trailing whitespace. -/
def pyStrip (s : String) : String :=
  String.mk (((s.data.dropWhile isPyWS).reverse.dropWhile isPyWS).reverse)

/-- Split a character list at every occurrence of a separator (Python
`str.split(sep)` for a one-character separator: `""` splits to `[""]`,
separators at the ends produce empty fields). -/
def splitOnChar (sep : Char) : List Char → List (List Char)
  | [] => [[]]
  | c :: rest =>
    match splitOnChar sep rest with
    | [] => [[c]]
    | grp :: grps => if c = sep then [] :: grp :: grps else (c :: grp) :: grps

/-- Python `s.split(sep)` for a one-character separator. -/
def pySplit (sep : Char) (s : String) : List String :=
  (splitOnChar sep s.data).map String.mk

/-- Lookup in an association list, first match wins (Python dict indexing,
given the unique-key invariant Python dicts maintain). -/
def assocLookup {α β : Type} [DecidableEq α] (k : α) : List (α × β) → Option β
  | [] => none
  | (a, b) :: rest => if a = k then some b else assocLookup k rest

/-- Python dict assignment `d[k] = v`: replace the value at an existing key in
place, otherwise append the new binding at the end (insertion order). -/
def dictInsert {α β : Type} [DecidableEq α] (k : α) (v : β) : List (α × β) → List (α × β)
  | [] => [(k, v)]
  | (a, b) :: rest => if a = k then (a, v) :: rest else (a, b) :: dictInsert k v rest

/-- Python dict mutation of an existing key's value (`d[k].append(x)`). -/
def dictModify {α β : Type} [DecidableEq α] (k : α) (f : β → β) : List (α × β) → List (α × β)
  | [] => []
  | (a, b) :: rest => if a = k then (a, f b) :: rest else (a, b) :: dictModify k f rest

/-- Python truthiness test `not s` on an optional string: `None` and the empty
string are falsy. -/
def pyFalsy : Option String → Bool
  | none => true
  | some s => s == ""

/-- Valid continuation of a Python decimal numeral after an initial digit:
digits, with single underscores allowed between digits. -/
def validDigitsTail : List Char → Bool
  | [] => true
  | '_' :: c :: rest => c.isDigit && validDigitsTail rest
  | ['_'] => false
  | c :: rest => c.isDigit && validDigitsTail rest

/-- Valid Python decimal numeral body: at least one digit, underscores only
between digits. -/
def validDigits : List Char → Bool
  | [] => false
  | c :: rest => c.isDigit && validDigitsTail rest

/-- Numeric value of a digit string, ignoring underscores. -/
def digitsToNat (cs : List Char) : Nat :=
  (cs.filter (fun c => c ≠ '_')).foldl (fun n c => n * 10 + (c.toNat - '0'.toNat)) 0

/-- Python `int(s)` on a string: strips surrounding whitespace, allows one
leading sign, then a decimal numeral; returns `none` where `int` raises
`ValueError`. -/
def pyInt (s : String) : Option Int :=
  match (pyStrip s).data with
  | [] => none
  | '+' :: rest => if validDigits rest then some (Int.ofNat (digitsToNat rest)) else none
  | '-' :: rest => if validDigits rest then some (-(Int.ofNat (digitsToNat rest))) else none
  | cs => if validDigits cs then some (Int.ofNat (digitsToNat cs)) else none

/-- `TRACK_NAMES`: the track-number → name constant of the script. -/
def TRACK_NAMES : List (Int × String) :=
  [(1, "explorer"), (2, "adventurer"), (3, "veteran"),
   (4, "champion"), (5, "hero"), (6, "myth")]

/-- One entry of the wago.tools builds listing: a JSON object that may or may
not carry a `version` field. -/
structure BuildEntry where
  version : Option String
  deriving DecidableEq

/-- Outcome of `GET https://wago.tools/api/builds`: `err` is any transport or
parse failure (the script's broad `except` clause); `ok wow` is a successful
response whose `"wow"` (retail) channel holds the given array (`[]` also
covers a missing `"wow"` key, which `builds.get("wow", [])` defaults). -/
inductive BuildsResult where
  | err
  | ok (wow : List BuildEntry)
  deriving DecidableEq

/-- `fetch_current_build`: first retail entry's `version` field, defaulted to
`""` by `.get("version", "")`; `None` on failure or an empty array. -/
def fetch_current_build : BuildsResult → Option String
  | .err => none
  | .ok [] => none
  | .ok (e :: _) => some (e.version.getD "")

/-- Strip a literal character prefix, or fail. -/
def dropPrefixChars : List Char → List Char → Option (List Char)
  | [], cs => some cs
  | _ :: _, [] => none
  | p :: ps, c :: cs => if c = p then dropPrefixChars ps cs else none

/-- The regex `^-- Build: (.+)$` applied to one line: the line must start with
the literal prefix and have at least one further character; the capture is the
rest of the line, which the script then `.strip()`s. -/
def markerOfLine (l : String) : Option String :=
  match dropPrefixChars "-- Build: ".data l.data with
  | some [] => none
  | some rest => some (pyStrip (String.mk rest))
  | none => none

/-- `get_existing_build`: `None` when the file does not exist, else the first
line matching the build-marker regex (`re.search` with `MULTILINE` finds the
earliest match). -/
def get_existing_build (artifact : Option (List String)) : Option String :=
  match artifact with
  | none => none
  | some lines => lines.findSome? markerOfLine

/-- `should_regenerate`, instrumented: the result pair together with the
number of `fetch_current_build` calls and of `get_existing_build` calls this
invocation performs. -/
def should_regenerate_instr (artifact : Option (List String)) (builds : BuildsResult)
    (force : Bool) : (Bool × String) × Nat × Nat :=
  if force then ((true, "forced regeneration"), 0, 0)
  else
    match artifact with
    | none => ((true, "TrackData.lua does not exist"), 0, 0)
    | some lines =>
      let existing := get_existing_build (some lines)
      if pyFalsy existing then ((true, "could not determine existing build version"), 0, 1)
      else
        let current := fetch_current_build builds
        if pyFalsy current then ((false, "could not fetch current build"), 1, 1)
        else if existing ≠ current then
          ((true, "build changed: " ++ existing.getD "" ++ " -> " ++ current.getD ""), 1, 1)
        else
          ((false, "already up to date (build " ++ existing.getD "" ++ ")"), 1, 1)

/-- `should_regenerate`: decision and reason. -/
def should_regenerate (artifact : Option (List String)) (builds : BuildsResult)
    (force : Bool) : Bool × String :=
  (should_regenerate_instr artifact builds force).1

/-- The spec's six-rule first-match decision table for the Staleness
Detector, stated over its five abstract inputs. -/
def decisionTable (forced hasPrev markerOk currentOk markerEq : Bool) : Bool :=
  if forced then true
  else if !hasPrev then true
  else if !markerOk then true
  else if !currentOk then false
  else if markerEq then false
  else true

/-- A parsed CSV row: column name → cell value, a Python dict. -/
abbrev Row := List (String × String)

/-- The inner loop of `fetch_db2_table`'s row construction:
`for i, header in enumerate(headers): if i < len(values): row[header.strip()] = values[i].strip()`.
Once the value list is exhausted every later index fails the bound, so the
loop is the simultaneous recursion on both lists. -/
def zipInto : Row → List String → List String → Row
  | row, h :: hs, v :: vs => zipInto (dictInsert (pyStrip h) (pyStrip v) row) hs vs
  | row, _, _ => row

/-- `fetch_db2_table`: `none` models the exception path (connection error,
timeout, or a non-success status raised by `raise_for_status`), which the
script catches and converts to `[]` after logging; a `some` body is
`response.text`, stripped, split on newlines, and parsed positionally
against the header line. -/
def fetch_db2_table (resp : Option String) : List Row :=
  match resp with
  | none => []
  | some text =>
    let lines := pySplit '\n' (pyStrip text)
    if lines.length < 2 then []
    else
      let headers := pySplit ',' (lines.headD "")
      (lines.drop 1).foldl
        (fun rows line =>
          if pyStrip line = "" then rows
          else rows ++ [zipInto [] headers (pySplit ',' line)]) []

/-- `row.get(key, "")`. -/
def rowGet (row : Row) (k : String) : String :=
  (assocLookup k row).getD ""

/-- One iteration of the first loop of `build_track_mapping`: extract
`ItemBonusListGroupID` and `Field_10_1_0_48898_002`, require both non-empty,
parse both as ints (a `ValueError` skips the row), and record the group only
when the track number is a key of `TRACK_NAMES`. -/
def processTrackRow (acc : List (Int × Int)) (row : Row) : List (Int × Int) :=
  let group_id := rowGet row "ItemBonusListGroupID"
  let track_num := rowGet row "Field_10_1_0_48898_002"
  if group_id ≠ "" ∧ track_num ≠ "" then
    match pyInt group_id, pyInt track_num with
    | some gid, some tnum =>
      if (assocLookup tnum TRACK_NAMES).isSome then dictInsert gid tnum acc else acc
    | _, _ => acc
  else acc

/-- `group_to_bonuses.setdefault`-style step: first occurrence of a group
appends a fresh singleton binding, later occurrences append to its list. -/
def appendBonus (acc : List (Int × List Int)) (gid bid : Int) : List (Int × List Int) :=
  match assocLookup gid acc with
  | none => acc ++ [(gid, [bid])]
  | some _ => dictModify gid (fun l => l ++ [bid]) acc

/-- One iteration of the second loop of `build_track_mapping`: extract
`ItemBonusListGroupID` and `ItemBonusListID`, require both non-empty, parse
both as ints, and append the bonus to its group's list. -/
def processEntryRow (acc : List (Int × List Int)) (row : Row) : List (Int × List Int) :=
  let group_id := rowGet row "ItemBonusListGroupID"
  let bonus_id := rowGet row "ItemBonusListID"
  if group_id ≠ "" ∧ bonus_id ≠ "" then
    match pyInt group_id, pyInt bonus_id with
    | some gid, some bid => appendBonus acc gid bid
    | _, _ => acc
  else acc

/-- One iteration of the final loop of `build_track_mapping`: resolve the
group's track name (`TRACK_NAMES.get`; the guard `if not track_name` fires
exactly on `None` since every name constant is non-empty) and record every
bonus of the group under that name. -/
def trackStep (gtb : List (Int × List Int)) (acc : List (Int × String)) (p : Int × Int) :
    List (Int × String) :=
  match assocLookup p.2 TRACK_NAMES with
  | none => acc
  | some name => ((assocLookup p.1 gtb).getD []).foldl (fun a b => dictInsert b name a) acc

/-- The final loop of `build_track_mapping` (lines 188–201): derive the
bonus-ID → track-name dict from the two intermediate dicts. -/
def buildBonusToTrack (gtt : List (Int × Int)) (gtb : List (Int × List Int)) :
    List (Int × String) :=
  gtt.foldl (trackStep gtb) []

/-- `build_track_mapping`, as a function of the two fetched row lists: returns
the empty dict when either fetch came back empty, otherwise builds the two
intermediate dicts and joins them. -/
def build_track_mapping (bonus_list_groups group_entries : List Row) : List (Int × String) :=
  if bonus_list_groups.isEmpty || group_entries.isEmpty then []
  else
    let group_to_track := bonus_list_groups.foldl processTrackRow []
    let group_to_bonuses := group_entries.foldl processEntryRow []
    buildBonusToTrack group_to_track group_to_bonuses

/-- Insertion into a list sorted ascending by key (for `sorted(d.items())`,
where keys are unique so the key alone decides the order). -/
def insertSorted (p : Int × String) : List (Int × String) → List (Int × String)
  | [] => [p]
  | q :: rest => if p.1 ≤ q.1 then p :: q :: rest else q :: insertSorted p rest

/-- `dict(sorted(bonus_to_track.items()))`: entries sorted ascending by key. -/
def sortByKey (l : List (Int × String)) : List (Int × String) :=
  l.foldr insertSorted []

/-- Modelled from the spec: the Jinja template `scripts/TrackData.template` is
not among the repository sources. Per the spec the rendered artifact carries
the literal marker line `-- Build: <version>` followed by the rendered data
structure holding the sorted mapping; we model it as the marker line followed
by one line per sorted entry. -/
def renderArtifact (mapping : List (Int × String)) (build_version : String) : List String :=
  ("-- Build: " ++ build_version) ::
    (sortByKey mapping).map (fun p => "  [" ++ toString p.1 ++ "] = \"" ++ p.2 ++ "\",")

/-- The argparse surface: a single `store_true` flag spelled `--force` or
`-f`; any other token is an unrecognized argument, which argparse rejects by
exiting with status 2 (`-h`/`--help` and unambiguous prefix abbreviations are
outside the model). -/
def parse_args (argv : List String) : Except Nat Bool :=
  if argv.all (fun a => a == "--force" || a == "-f") then
    .ok (argv.any (fun a => a == "--force" || a == "-f"))
  else .error 2

/-- Whether the command line is accepted by the argument parser. -/
def validArgs (argv : List String) : Bool :=
  argv.all (fun a => a == "--force" || a == "-f")

/-- `fetch_current_build() or "unknown"`: Python `or` replaces both `None`
and the empty string by the fallback. -/
def buildVersionOf (b : BuildsResult) : String :=
  match fetch_current_build b with
  | none => "unknown"
  | some s => if s = "" then "unknown" else s

/-- How one run of the process ends: `exited c` is `sys.exit(c)` (or the
argparse error exit), `finished w` is a normal return — exit status 0 — with
`w` the artifact written (`none` when regeneration was skipped). -/
inductive RunOutcome where
  | exited (code : Nat)
  | finished (written : Option (List String))
  deriving DecidableEq

/-- The world one run observes: command line, current artifact (as lines, or
absent), the builds-endpoint response, the two table responses, and whether
the template file is deployed. -/
structure World where
  argv : List String
  artifact : Option (List String)
  builds : BuildsResult
  groupsResp : Option String
  entriesResp : Option String
  templateExists : Bool
  deriving DecidableEq

/-- `main`, instrumented: the outcome together with how many times the run
called `fetch_current_build` and `get_existing_build`. The staleness check
gates everything; on regeneration the build version is fetched again for
embedding, the tables are fetched and joined, and `generate_lua` either
exits 1 (template missing) or writes the rendered artifact. -/
def mainRun (w : World) : RunOutcome × Nat × Nat :=
  match parse_args w.argv with
  | .error code => (.exited code, 0, 0)
  | .ok force =>
    let r := should_regenerate_instr w.artifact w.builds force
    if r.1.1 = false then (.finished none, r.2.1, r.2.2)
    else
      let build_version := buildVersionOf w.builds
      let mapping := build_track_mapping (fetch_db2_table w.groupsResp)
        (fetch_db2_table w.entriesResp)
      if w.templateExists then
        (.finished (some (renderArtifact mapping build_version)), r.2.1 + 1, r.2.2)
      else
        (.exited 1, r.2.1 + 1, r.2.2)

/-- The canonical track name for each number as the spec enumerates them:
1=explorer, 2=adventurer, 3=veteran, 4=champion, 5=hero, 6=myth. -/
def canonicalTrackName (t : Int) : String :=
  if t = 1 then "explorer"
  else if t = 2 then "adventurer"
  else if t = 3 then "veteran"
  else if t = 4 then "champion"
  else if t = 5 then "hero"
  else if t = 6 then "myth"
  else ""

/-- The track name the final join assigns to bonus `b`: the name of the last
group in `gtt`'s iteration order whose bonus list contains `b` (and whose
track number is a key of `TRACK_NAMES`) — `none` when no group reaches `b`.
Dict assignment makes later groups win. -/
def lastTrackFor (gtb : List (Int × List Int)) : List (Int × Int) → Int → Option String
  | [], _ => none
  | p :: rest, b =>
    match lastTrackFor gtb rest b with
    | some n => some n
    | none =>
      match assocLookup p.2 TRACK_NAMES with
      | some name => if b ∈ (assocLookup p.1 gtb).getD [] then some name else none
      | none => none

/-- The spec's description of one parsed row: the header and the comma-split
values zipped positionally (`zip` truncates to the shorter list: extra values
are dropped, headers past the value list are absent), names and values
trimmed, collected into a dict. -/
def rowOfLineSpec (headers : List String) (line : String) : Row :=
  ((headers.zip (pySplit ',' line)).map (fun p => (pyStrip p.1, pyStrip p.2))).foldl
    (fun acc p => dictInsert p.1 p.2 acc) []

/-- The spec's description of the whole body parse: first line is the header,
every subsequent non-blank line becomes one row, in order. -/
def parseBodySpec (text : String) : List Row :=
  ((pySplit '\n' (pyStrip text)).drop 1).filter (fun l => decide (pyStrip l ≠ "")) |>.map
    (rowOfLineSpec (pySplit ',' ((pySplit '\n' (pyStrip text)).headD "")))

/-! ## Theorems -/

/-- C1: `should_regenerate`'s boolean decision coincides, for every
combination of forced flag, artifact state and builds-endpoint outcome, with
the spec's six-rule first-match decision table over the five abstract inputs
(forced, previous artifact exists, marker extractable, current build
resolvable, marker equals current build). -/
theorem should_regenerate_decision_table (a : Option (List String)) (b : BuildsResult)
    (f : Bool) :
    (should_regenerate a b f).1 =
      decisionTable f a.isSome (!pyFalsy (get_existing_build a))
        (!pyFalsy (fetch_current_build b))
        (decide (get_existing_build a = fetch_current_build b)) := by
  cases f with
  | true => simp [should_regenerate, should_regenerate_instr, decisionTable]
  | false =>
    cases a with
    | none =>
      simp [should_regenerate, should_regenerate_instr, decisionTable, get_existing_build]
    | some lines =>
      by_cases h1 : pyFalsy (get_existing_build (some lines)) = true
      · simp [should_regenerate, should_regenerate_instr, decisionTable, h1]
      · by_cases h2 : pyFalsy (fetch_current_build b) = true
        · simp [should_regenerate, should_regenerate_instr, decisionTable, h1, h2]
        · by_cases h3 : get_existing_build (some lines) = fetch_current_build b
          · simp [should_regenerate, should_regenerate_instr, decisionTable, h1, h2, h3]
          · simp [should_regenerate, should_regenerate_instr, decisionTable, h1, h2, h3]

/-- C5: the table fetcher fails soft — the exception path (network error or
non-success status) and a body of fewer than two lines both yield the empty
row list; no input makes it raise (the embedding is a total function). -/
theorem fetch_db2_table_fail_soft :
    fetch_db2_table none = [] ∧
    ∀ text, (pySplit '\n' (pyStrip text)).length < 2 → fetch_db2_table (some text) = [] := by
  refine ⟨rfl, fun text h => ?_⟩
  unfold fetch_db2_table
  simp only [h, if_true]

/-- Witness for C5: the empty body has one line after stripping, hence fewer
than two, and indeed parses to no rows. -/
theorem fetch_db2_table_fail_soft_witness :
    (pySplit '\n' (pyStrip "")).length < 2 ∧ fetch_db2_table (some "") = [] :=
  ⟨by decide, fetch_db2_table_fail_soft.2 "" (by decide)⟩

/-- C9: if either fetched table is the empty row list, `build_track_mapping`
is the empty mapping, whatever the other table holds — the guard returns
before either scanning loop runs. -/
theorem build_track_mapping_requires_both (g e : List Row) (h : g = [] ∨ e = []) :
    build_track_mapping g e = [] := by
  unfold build_track_mapping
  rcases h with h | h <;> subst h <;> simp

/-- Witness for C9: a non-empty groups table together with an empty entries
table still yields the empty mapping. -/
theorem build_track_mapping_requires_both_witness :
    ([[("ItemBonusListGroupID", "1")]] = ([] : List Row) ∨ ([] : List Row) = []) ∧
    build_track_mapping [[("ItemBonusListGroupID", "1")]] [] = [] :=
  ⟨Or.inr rfl, build_track_mapping_requires_both _ _ (Or.inr rfl)⟩

/-- C10: a successful builds response whose first retail entry lacks a
`version` field makes `fetch_current_build` return the empty string, and both
callers treat that exactly like `None`: `should_regenerate` behaves
identically to the error case (in particular it skips with reason
"could not fetch current build" once it consults the current build), and
`main`'s embedded build version falls back to `"unknown"`. -/
theorem fetch_current_build_empty_version :
    fetch_current_build (.ok [⟨none⟩]) = some "" ∧
    (∀ a f, should_regenerate a (.ok [⟨none⟩]) f = should_regenerate a .err f) ∧
    (∀ a, pyFalsy (get_existing_build a) = false →
      should_regenerate a (.ok [⟨none⟩]) false = (false, "could not fetch current build")) ∧
    buildVersionOf (.ok [⟨none⟩]) = "unknown" := by
  refine ⟨rfl, fun a f => ?_, fun a h => ?_, rfl⟩
  · cases f with
    | true => rfl
    | false =>
      cases a with
      | none => rfl
      | some lines =>
        by_cases h1 : pyFalsy (get_existing_build (some lines)) = true <;>
          simp [should_regenerate, should_regenerate_instr, h1, fetch_current_build, pyFalsy]
  · cases a with
    | none => simp [get_existing_build, pyFalsy] at h
    | some lines =>
      have h2 : pyFalsy (fetch_current_build (.ok [⟨none⟩])) = true := rfl
      simp [should_regenerate, should_regenerate_instr, h, h2]

/-- Witness for C10: an artifact with a readable marker, facing a version-less
first build entry, is left alone with the expected reason. -/
theorem fetch_current_build_empty_version_witness :
    pyFalsy (get_existing_build (some ["-- Build: 1.2.3"])) = false ∧
    should_regenerate (some ["-- Build: 1.2.3"]) (.ok [⟨none⟩]) false =
      (false, "could not fetch current build") :=
  ⟨by decide, fetch_current_build_empty_version.2.2.1 _ (by decide)⟩

/-- `TRACK_NAMES` lookup succeeds on 1..6 and yields the canonical name. -/
theorem trackNames_lookup_inRange (t : Int) (h1 : 1 ≤ t) (h2 : t ≤ 6) :
    assocLookup t TRACK_NAMES = some (canonicalTrackName t) := by
  interval_cases t <;> rfl

/-- `TRACK_NAMES` lookup fails outside 1..6. -/
theorem trackNames_lookup_outRange (t : Int) (h : t < 1 ∨ 6 < t) :
    assocLookup t TRACK_NAMES = none := by
  simp only [TRACK_NAMES, assocLookup]
  split_ifs <;> first | rfl | (exfalso; omega)

/-- C7: per row of the group-to-track table — when both fields are present,
non-empty and numeric and the track number lies in 1..6, the group is
recorded (dict assignment) with a track number whose canonical name is the
enumerated one; when a field is missing, empty, or non-numeric, or the track
number falls outside 1..6, the row is skipped and the table is unchanged (no
error: the embedding is total). -/
theorem processTrackRow_row_classification (acc : List (Int × Int)) (row : Row) (gid t : Int) :
    (rowGet row "ItemBonusListGroupID" ≠ "" →
     rowGet row "Field_10_1_0_48898_002" ≠ "" →
     pyInt (rowGet row "ItemBonusListGroupID") = some gid →
     pyInt (rowGet row "Field_10_1_0_48898_002") = some t →
     1 ≤ t → t ≤ 6 →
     processTrackRow acc row = dictInsert gid t acc ∧
       assocLookup t TRACK_NAMES = some (canonicalTrackName t)) ∧
    ((rowGet row "ItemBonusListGroupID" = "" ∨ rowGet row "Field_10_1_0_48898_002" = "" ∨
      pyInt (rowGet row "ItemBonusListGroupID") = none ∨
      pyInt (rowGet row "Field_10_1_0_48898_002") = none ∨
      (∀ t', pyInt (rowGet row "Field_10_1_0_48898_002") = some t' → t' < 1 ∨ 6 < t')) →
     processTrackRow acc row = acc) := by
  constructor
  · intro h1 h2 h3 h4 h5 h6
    have hl := trackNames_lookup_inRange t h5 h6
    refine ⟨?_, hl⟩
    simp [processTrackRow, h1, h2, h3, h4, hl]
  · intro h
    rcases h with h | h | h | h | h
    · simp [processTrackRow, h]
    · simp [processTrackRow, h]
    · by_cases h1 : rowGet row "ItemBonusListGroupID" = ""
      · simp [processTrackRow, h1]
      · by_cases h2 : rowGet row "Field_10_1_0_48898_002" = ""
        · simp [processTrackRow, h2]
        · simp [processTrackRow, h1, h2, h]
    · by_cases h1 : rowGet row "ItemBonusListGroupID" = ""
      · simp [processTrackRow, h1]
      · by_cases h2 : rowGet row "Field_10_1_0_48898_002" = ""
        · simp [processTrackRow, h2]
        · cases hg : pyInt (rowGet row "ItemBonusListGroupID") <;>
            simp [processTrackRow, h1, h2, h, hg]
    · by_cases h1 : rowGet row "ItemBonusListGroupID" = ""
      · simp [processTrackRow, h1]
      · by_cases h2 : rowGet row "Field_10_1_0_48898_002" = ""
        · simp [processTrackRow, h2]
        · cases ht : pyInt (rowGet row "Field_10_1_0_48898_002") with
          | none =>
            cases hg : pyInt (rowGet row "ItemBonusListGroupID") <;>
              simp [processTrackRow, h1, h2, hg, ht]
          | some t' =>
            have hout := trackNames_lookup_outRange t' (h t' ht)
            cases hg : pyInt (rowGet row "ItemBonusListGroupID") <;>
              simp [processTrackRow, h1, h2, hg, ht, hout]

/-- Witness for C7: a well-formed row with track number 2 is recorded, and 2's
canonical name is resolved. -/
theorem processTrackRow_row_classification_witness :
    rowGet [("ItemBonusListGroupID", "10"), ("Field_10_1_0_48898_002", "2")]
        "ItemBonusListGroupID" ≠ "" ∧
    (processTrackRow [] [("ItemBonusListGroupID", "10"), ("Field_10_1_0_48898_002", "2")] =
        dictInsert 10 2 [] ∧
      assocLookup 2 TRACK_NAMES = some (canonicalTrackName 2)) :=
  ⟨by decide,
    (processTrackRow_row_classification []
        [("ItemBonusListGroupID", "10"), ("Field_10_1_0_48898_002", "2")] 10 2).1
      (by decide) (by decide) (by decide) (by decide) (by decide) (by decide)⟩

/-- The row-construction loop equals the positional zip the spec describes. -/
theorem zipInto_eq_zip (hs : List String) (vs : List String) (r : Row) :
    zipInto r hs vs =
      ((hs.zip vs).map (fun p => (pyStrip p.1, pyStrip p.2))).foldl
        (fun acc p => dictInsert p.1 p.2 acc) r := by
  induction hs generalizing vs r with
  | nil => simp [zipInto]
  | cons h hs ih =>
    cases vs with
    | nil => simp [zipInto]
    | cons v vs => simp [zipInto, ih]

/-- Accumulating rows one by one while skipping blank lines is filtering the
blank lines out and mapping the row constructor. -/
theorem foldl_rows_eq_filter_map {α β : Type} (f : α → β) (p : α → Prop) [DecidablePred p]
    (ls : List α) (acc : List β) :
    ls.foldl (fun rows line => if p line then rows else rows ++ [f line]) acc =
      acc ++ (ls.filter (fun l => decide (¬p l))).map f := by
  induction ls generalizing acc with
  | nil => simp
  | cons l ls ih => by_cases h : p l <;> simp [h, ih]

/-- C8: on a fetched body with at least two lines, the parser returns exactly
the spec's description: the first line comma-split into trimmed header names,
every blank subsequent line skipped, every other line comma-split and zipped
positionally against the header — values beyond the header length dropped,
header positions beyond the value length absent, no padding. -/
theorem fetch_db2_table_positional_parse (text : String)
    (h : 2 ≤ (pySplit '\n' (pyStrip text)).length) :
    fetch_db2_table (some text) = parseBodySpec text := by
  unfold fetch_db2_table parseBodySpec
  dsimp only
  rw [if_neg (by omega)]
  rw [foldl_rows_eq_filter_map (p := fun l => pyStrip l = "")]
  simp only [List.nil_append]
  unfold rowOfLineSpec
  congr 1
  funext line
  exact zipInto_eq_zip _ _ _

/-- Witness for C8: a two-line body with a ragged data row. -/
theorem fetch_db2_table_positional_parse_witness :
    2 ≤ (pySplit '\n' (pyStrip "ID, Name ,X\n1, a \n\n2")).length ∧
    fetch_db2_table (some "ID, Name ,X\n1, a \n\n2") =
      parseBodySpec "ID, Name ,X\n1, a \n\n2" :=
  ⟨by decide, fetch_db2_table_positional_parse _ (by decide)⟩

/-- Stripping a literal prefix from itself plus a tail yields the tail. -/
theorem dropPrefixChars_append (ps cs : List Char) :
    dropPrefixChars ps (ps ++ cs) = some cs := by
  induction ps with
  | nil => rfl
  | cons p ps ih => simp [dropPrefixChars, ih]

/-- C3 (amended): for every non-empty build version string with no newline
and no surrounding whitespace, the marker parser extracts from the rendered
artifact exactly that string — the marker line written by the renderer
round-trips verbatim. (For the empty string the marker line has no capture
and extraction fails; see the counterexample.) -/
theorem render_marker_roundtrip (m : List (Int × String)) (v : String)
    (hne : v ≠ "") (_hnl : ¬v.data.contains '\n') (hst : pyStrip v = v) :
    get_existing_build (some (renderArtifact m v)) = some v := by
  unfold get_existing_build renderArtifact
  dsimp only
  rw [List.findSome?_cons]
  have hdata : ("-- Build: " ++ v).data = "-- Build: ".data ++ v.data :=
    String.data_append _ _
  unfold markerOfLine
  rw [hdata, dropPrefixChars_append]
  cases hv : v.data with
  | nil =>
    exfalso
    apply hne
    cases v
    simp only [String.data] at hv
    simp [hv]
  | cons c cs =>
    dsimp only
    rw [← hv]
    show some (pyStrip v) = some v
    rw [hst]

/-- Witness for the amended C3 at the spec's example version string. -/
theorem render_marker_roundtrip_witness :
    "1.2.3.45678" ≠ "" ∧
    get_existing_build (some (renderArtifact [(100, "adventurer")] "1.2.3.45678")) =
      some "1.2.3.45678" :=
  ⟨by decide,
    render_marker_roundtrip [(100, "adventurer")] "1.2.3.45678" (by decide) (by decide)
      (by decide)⟩

/-- Counterexample for C3 as stated: the empty string has no newline and no
surrounding whitespace, yet the marker written for it (`"-- Build: "`) offers
the regex `^-- Build: (.+)$` nothing to capture, so extraction does not
return it. -/
theorem render_marker_roundtrip_fails_empty :
    get_existing_build (some (renderArtifact [] "")) ≠ some "" := by
  decide

/-- The staleness check itself fetches the current build at most once and
parses the previous marker at most once. -/
theorem should_regenerate_instr_counts (a : Option (List String)) (b : BuildsResult)
    (f : Bool) :
    (should_regenerate_instr a b f).2.1 ≤ 1 ∧ (should_regenerate_instr a b f).2.2 ≤ 1 := by
  unfold should_regenerate_instr
  cases f <;> cases a
  · simp
  · simp only [Bool.false_eq_true, if_false]
    split_ifs <;> simp
  · simp
  · simp

/-- C4 (amended): one run calls `fetch_current_build` at most twice — at most
once inside the staleness check, plus exactly one more call in `main` when
regeneration proceeds — and parses the previous artifact's marker at most
once. (The claim's "at most once, no path fetches twice" fails: see the
counterexample.) -/
theorem mainRun_fetch_parse_counts (w : World) :
    (mainRun w).2.1 ≤ 2 ∧ (mainRun w).2.2 ≤ 1 := by
  unfold mainRun
  cases hp : parse_args w.argv with
  | error c => simp
  | ok force =>
    have h := should_regenerate_instr_counts w.artifact w.builds force
    dsimp only
    by_cases hr : (should_regenerate_instr w.artifact w.builds force).1.1 = false <;>
      by_cases ht : w.templateExists <;> simp [hr, ht] <;> omega

/-- Counterexample for C4 as stated: with an existing artifact carrying
marker `1.0` and upstream resolving to `2.0`, the run decides to regenerate —
fetching the current build once in the staleness check — and then `main`
fetches it a second time for embedding: two fetches on one path. -/
theorem mainRun_double_fetch :
    (mainRun ⟨[], some ["-- Build: 1.0"], .ok [⟨some "2.0"⟩], none, none, true⟩).2.1 = 2 := by
  decide

/-- C6 (amended): a non-zero exit happens only when the command line is
rejected by the argument parser or the template resource is absent; with a
valid command line and the template present, every run returns normally
(exit code 0), whether it regenerates or intentionally skips. (The claim's
"only when the template resource is absent" fails on invalid arguments: see
the counterexample.) -/
theorem mainRun_exit_codes (w : World) :
    (∀ c, (mainRun w).1 = .exited c → c ≠ 0 →
      validArgs w.argv = false ∨ w.templateExists = false) ∧
    (validArgs w.argv = true → w.templateExists = true →
      ∃ r, (mainRun w).1 = .finished r) := by
  unfold mainRun parse_args validArgs
  by_cases hv : w.argv.all (fun a => a == "--force" || a == "-f") = true
  · simp only [hv, if_true]
    by_cases hr : (should_regenerate_instr w.artifact w.builds
        (w.argv.any (fun a => a == "--force" || a == "-f"))).1.1 = false
    · simp [hr]
    · by_cases ht : w.templateExists <;> simp [hr, ht]
  · rw [if_neg hv]
    refine ⟨fun c _ _ => Or.inl ?_, fun hva => absurd hva hv⟩
    simpa using hv

/-- Counterexample for C6 as stated: an unrecognized command-line argument
makes the run terminate with exit status 2 even though the template resource
is present — a non-zero exit not caused by a missing template. -/
theorem mainRun_bad_arg_nonzero_exit :
    (mainRun ⟨["--bogus"], none, .err, none, none, true⟩).1 = .exited 2 ∧
    (⟨["--bogus"], none, .err, none, none, true⟩ : World).templateExists = true := by
  decide

/-- Witness for the amended C6: a valid command line with the template
present returns normally. -/
theorem mainRun_exit_codes_witness :
    validArgs [] = true ∧
    ∃ r, (mainRun ⟨[], none, .err, none, none, true⟩).1 = .finished r :=
  ⟨by decide, (mainRun_exit_codes ⟨[], none, .err, none, none, true⟩).2 (by decide) (by decide)⟩

/-- Looking a key up after a dict assignment: the assigned key reads the new
value, every other key is untouched. -/
theorem assocLookup_dictInsert {α β : Type} [DecidableEq α] (k b : α) (v : β)
    (d : List (α × β)) :
    assocLookup b (dictInsert k v d) = if k = b then some v else assocLookup b d := by
  induction d with
  | nil =>
    by_cases h : k = b <;> simp [dictInsert, assocLookup, h]
  | cons p rest ih =>
    obtain ⟨a, c⟩ := p
    by_cases h1 : a = k
    · subst h1
      by_cases h2 : a = b <;> simp [dictInsert, assocLookup, h2]
    · by_cases h2 : a = b
      · subst h2
        simp [dictInsert, assocLookup, h1]
        rw [if_neg (fun h => h1 h.symm)]
      · simp [dictInsert, assocLookup, h1, h2, ih]

/-- Folding the bonus list of one group into the dict: every bonus of the
list now reads the group's name, everything else is untouched. -/
theorem assocLookup_foldl_insert (nm : String) (bs : List Int) (acc : List (Int × String))
    (b : Int) :
    assocLookup b (bs.foldl (fun a x => dictInsert x nm a) acc) =
      if b ∈ bs then some nm else assocLookup b acc := by
  induction bs generalizing acc with
  | nil => simp
  | cons x bs ih =>
    rw [List.foldl_cons, ih]
    by_cases h1 : b ∈ bs
    · simp [h1]
    · by_cases h2 : b = x
      · subst h2
        simp [h1, assocLookup_dictInsert]
      · simp [h1, h2, assocLookup_dictInsert]
        intro h3
        exact absurd h3.symm h2

/-- Unfolding `lastTrackFor` one group at a time. -/
theorem lastTrackFor_cons (gtb : List (Int × List Int)) (q : Int × Int)
    (rest : List (Int × Int)) (b : Int) :
    lastTrackFor gtb (q :: rest) b =
      match lastTrackFor gtb rest b with
      | some n => some n
      | none =>
        match assocLookup q.2 TRACK_NAMES with
        | some name => if b ∈ (assocLookup q.1 gtb).getD [] then some name else none
        | none => none := rfl

/-- The final join, folded over any accumulator: a bonus reads the name of
the last group reaching it, and falls back to the accumulator otherwise. -/
theorem assocLookup_buildFold (gtb : List (Int × List Int)) (gtt : List (Int × Int))
    (acc : List (Int × String)) (b : Int) :
    assocLookup b (gtt.foldl (trackStep gtb) acc) =
      match lastTrackFor gtb gtt b with
      | some n => some n
      | none => assocLookup b acc := by
  induction gtt generalizing acc with
  | nil => simp [lastTrackFor]
  | cons p rest ih =>
    rw [List.foldl_cons, ih, lastTrackFor_cons]
    cases hl : lastTrackFor gtb rest b with
    | some n => simp
    | none =>
      unfold trackStep
      cases hn : assocLookup p.2 TRACK_NAMES with
      | none => simp
      | some name =>
        rw [assocLookup_foldl_insert]
        by_cases hb : b ∈ (assocLookup p.1 gtb).getD [] <;> simp [hb]

/-- If the last-group resolution finds a name, some group produced it. -/
theorem lastTrackFor_mem (gtb : List (Int × List Int)) (gtt : List (Int × Int)) (b : Int)
    (n : String) (h : lastTrackFor gtb gtt b = some n) :
    ∃ p, p ∈ gtt ∧ b ∈ (assocLookup p.1 gtb).getD [] ∧
      assocLookup p.2 TRACK_NAMES = some n := by
  induction gtt with
  | nil => simp [lastTrackFor] at h
  | cons q rest ih =>
    rw [lastTrackFor_cons] at h
    cases hl : lastTrackFor gtb rest b with
    | some m =>
      rw [hl] at h
      dsimp only at h
      obtain ⟨p, hp, hb, hn⟩ := ih (hl.trans h)
      exact ⟨p, List.mem_cons_of_mem _ hp, hb, hn⟩
    | none =>
      rw [hl] at h
      dsimp only at h
      cases hn : assocLookup q.2 TRACK_NAMES with
      | none => rw [hn] at h; simp at h
      | some name =>
        rw [hn] at h
        dsimp only at h
        by_cases hb : b ∈ (assocLookup q.1 gtb).getD []
        · rw [if_pos hb] at h
          exact ⟨q, List.mem_cons_self _ _, hb, by rw [hn, h]⟩
        · rw [if_neg hb] at h
          simp at h

/-- If some group of the table reaches the bonus with a resolvable track,
the last-group resolution finds a name. -/
theorem lastTrackFor_isSome (gtb : List (Int × List Int)) (gtt : List (Int × Int)) (b : Int)
    (p : Int × Int) (hp : p ∈ gtt) (hb : b ∈ (assocLookup p.1 gtb).getD [])
    (hn : (assocLookup p.2 TRACK_NAMES).isSome) :
    (lastTrackFor gtb gtt b).isSome := by
  induction gtt with
  | nil => cases hp
  | cons q rest ih =>
    rw [lastTrackFor_cons]
    cases hl : lastTrackFor gtb rest b with
    | some m => simp
    | none =>
      rcases List.mem_cons.mp hp with rfl | hmem
      · cases hnq : assocLookup p.2 TRACK_NAMES with
        | none => rw [hnq] at hn; cases hn
        | some name => simp [hnq, hb]
      · have hr := ih hmem
        rw [hl] at hr
        cases hr

/-- With duplicate-free keys (the dict invariant), membership gives lookup. -/
theorem assocLookup_of_mem_nodup {α β : Type} [DecidableEq α] (l : List (α × β)) (p : α × β)
    (hp : p ∈ l) (hnd : (l.map Prod.fst).Nodup) : assocLookup p.1 l = some p.2 := by
  induction l with
  | nil => cases hp
  | cons q rest ih =>
    obtain ⟨a, c⟩ := q
    rw [List.map_cons, List.nodup_cons] at hnd
    rcases List.mem_cons.mp hp with rfl | hmem
    · simp [assocLookup]
    · have hq : ¬a = p.1 := fun he =>
        hnd.1 (by rw [he]; exact List.mem_map.mpr ⟨p, hmem, rfl⟩)
      simp [assocLookup, hq]
      exact ih hmem hnd.2

/-- Lookup success gives membership. -/
theorem mem_of_assocLookup {α β : Type} [DecidableEq α] (l : List (α × β)) (g : α) (t : β)
    (h : assocLookup g l = some t) : (g, t) ∈ l := by
  induction l with
  | nil => cases h
  | cons q rest ih =>
    obtain ⟨a, c⟩ := q
    unfold assocLookup at h
    by_cases hq : a = g
    · rw [if_pos hq] at h
      injection h with h
      subst hq h
      exact List.mem_cons_self _ _
    · rw [if_neg hq] at h
      exact List.mem_cons_of_mem _ (ih h)

/-- C2 (amended): over inputs whose group-to-track dict has duplicate-free
keys and tracks in 1..6, and in which no bonus ID is reachable from two
groups carrying different tracks, the derived mapping contains `b → n`
exactly when some group `g` has track `t` with canonical name `n` and `b`
among its bonuses; a group absent from the bonus table contributes nothing
(its bonus list defaults to empty). Without the no-conflict hypothesis the
claim fails — dict assignment lets the last conflicting group win (see the
counterexample). -/
theorem buildBonusToTrack_characterization (gtt : List (Int × Int))
    (gtb : List (Int × List Int))
    (hnd : (gtt.map Prod.fst).Nodup)
    (_htrack : ∀ p ∈ gtt, 1 ≤ p.2 ∧ p.2 ≤ 6)
    (hconf : ∀ p ∈ gtt, ∀ q ∈ gtt, ∀ b ∈ (assocLookup p.1 gtb).getD [],
      b ∈ (assocLookup q.1 gtb).getD [] → p.2 = q.2)
    (b : Int) (n : String) :
    assocLookup b (buildBonusToTrack gtt gtb) = some n ↔
      ∃ g t, assocLookup g gtt = some t ∧ b ∈ (assocLookup g gtb).getD [] ∧
        assocLookup t TRACK_NAMES = some n := by
  unfold buildBonusToTrack
  rw [assocLookup_buildFold]
  constructor
  · intro h
    cases hl : lastTrackFor gtb gtt b with
    | none => rw [hl] at h; simp [assocLookup] at h
    | some m =>
      rw [hl] at h
      dsimp only at h
      obtain ⟨p, hp, hb, hn⟩ := lastTrackFor_mem _ _ _ _ hl
      exact ⟨p.1, p.2, assocLookup_of_mem_nodup _ _ hp hnd, hb, by rw [hn, h]⟩
  · rintro ⟨g, t, hg, hb, hn⟩
    have hmem : (g, t) ∈ gtt := mem_of_assocLookup _ _ _ hg
    have hs : (lastTrackFor gtb gtt b).isSome :=
      lastTrackFor_isSome gtb gtt b (g, t) hmem hb (by rw [hn]; rfl)
    cases hl : lastTrackFor gtb gtt b with
    | none => rw [hl] at hs; cases hs
    | some m =>
      dsimp only
      obtain ⟨q, hq, hbq, hnq⟩ := lastTrackFor_mem _ _ _ _ hl
      have ht : t = q.2 := hconf (g, t) hmem q hq b hb hbq
      rw [← ht] at hnq
      rw [hn] at hnq
      exact hnq.symm

/-- Counterexample for C2 as stated: bonus 100 is reachable both from group 1
(track 2, adventurer) and from group 2 (track 6, myth); the claim's
characterization demands the entry `100 → "adventurer"`, but the join's dict
assignment lets the later group win and the mapping holds `100 → "myth"`. -/
theorem buildBonusToTrack_conflict :
    assocLookup 1 ([(1, 2), (2, 6)] : List (Int × Int)) = some 2 ∧
    (100 : Int) ∈ (assocLookup 1 ([(1, [100]), (2, [100])] : List (Int × List Int))).getD [] ∧
    assocLookup 2 TRACK_NAMES = some "adventurer" ∧
    assocLookup 100 (buildBonusToTrack [(1, 2), (2, 6)] [(1, [100]), (2, [100])]) =
      some "myth" ∧
    assocLookup 100 (buildBonusToTrack [(1, 2), (2, 6)] [(1, [100]), (2, [100])]) ≠
      some "adventurer" := by
  decide

/-- Witness for the amended C2 at the spec's scenario: with
`group_to_track = {10: 2, 20: 6}` and `group_to_bonuses = {10: [100, 101],
20: [200]}` the characterization applies and places `100 → "adventurer"`. -/
theorem buildBonusToTrack_characterization_witness :
    (([(10, 2), (20, 6)] : List (Int × Int)).map Prod.fst).Nodup ∧
    (assocLookup 100
        (buildBonusToTrack [(10, 2), (20, 6)] [(10, [100, 101]), (20, [200])]) =
          some "adventurer" ↔
      ∃ g t, assocLookup g ([(10, 2), (20, 6)] : List (Int × Int)) = some t ∧
        (100 : Int) ∈
          (assocLookup g ([(10, [100, 101]), (20, [200])] : List (Int × List Int))).getD [] ∧
        assocLookup t TRACK_NAMES = some "adventurer") :=
  ⟨by decide,
    buildBonusToTrack_characterization [(10, 2), (20, 6)] [(10, [100, 101]), (20, [200])]
      (by decide) (by decide) (by decide) 100 "adventurer"⟩
